import Mathlib

/-!
Verification of the job orchestration and result-assembly core of the
Vision repository (FastAPI services in `src/main.py`, `src/app.py`, and the
`src/app/` package).  The Python source is shallowly embedded: dictionaries
become functions `String → Option _`, wall-clock reads become explicit
parameters, raised HTTP exceptions become `Except` errors, and the archive
generator's side effects become an explicit event trace.
-/

/-! ## Job registry (src/app/jobs.py) -/

/-- The `JobState` enum of `src/app/jobs.py`. -/
inductive JobState where
  | queued
  | running
  | succeeded
  | failed
deriving DecidableEq

/-- `JobState.value`: the string stored in a job record (`state.value` in
Python, since the registry stores the enum's `.value`). -/
def JobState.value : JobState → String
  | .queued => "QUEUED"
  | .running => "RUNNING"
  | .succeeded => "SUCCEEDED"
  | .failed => "FAILED"

/-- One record of the registry's `_jobs` dictionary: the five keys written by
`JobRegistry.create`.  Timestamps are the ISO strings produced by
`datetime.utcnow().isoformat() + "Z"`, kept abstract as `String` parameters
supplied at call time. -/
structure JobRecord where
  job_id : String
  state : String
  message : String
  created_at : String
  updated_at : String
deriving DecidableEq

/-- The registry's `_jobs : Dict[str, Dict[str, Any]]`, embedded as a map
from job id to optional record. -/
def JobRegistry : Type := String → Option JobRecord

/-- `JobRegistry.create` (src/app/jobs.py lines 16–23): unconditionally
assigns a fresh record under `job_id`.  The two `utcnow()` calls are the
explicit parameters `tc` (for `created_at`) and `tu` (for `updated_at`). -/
def JobRegistry.create (reg : JobRegistry) (job_id : String) (tc tu : String) :
    JobRegistry :=
  fun k =>
    if k = job_id then
      some { job_id := job_id, state := JobState.queued.value,
             message := "Queued", created_at := tc, updated_at := tu }
    else reg k

/-- `JobRegistry.update` (src/app/jobs.py lines 25–31): looks the record up;
if absent, returns with no change; otherwise sets `state`, `message` and
`updated_at` in place (parameter `t` is the `utcnow()` call). -/
def JobRegistry.update (reg : JobRegistry) (job_id : String) (state : JobState)
    (message : String) (t : String) : JobRegistry :=
  match reg job_id with
  | none => reg
  | some job =>
      fun k =>
        if k = job_id then
          some { job with state := state.value, message := message,
                          updated_at := t }
        else reg k

/-- `JobRegistry.get` (src/app/jobs.py lines 33–34). -/
def JobRegistry.get (reg : JobRegistry) (job_id : String) : Option JobRecord :=
  reg job_id

/-- A small concrete registry holding one job in the terminal state
`SUCCEEDED`, as left by a completed run of `_start_sync_job`. -/
def regSucceeded : JobRegistry :=
  fun k =>
    if k = "job_2024-01-01_000000" then
      some { job_id := "job_2024-01-01_000000", state := "SUCCEEDED",
             message := "Export complete", created_at := "t0",
             updated_at := "t1" }
    else none

/-- C1, counterexample.  The registry record of `job_2024-01-01_000000` is
terminal (`SUCCEEDED`), yet a subsequent `JobRegistry.update` call changes its
`state` field to `RUNNING`: `update` contains no terminal-state guard. -/
theorem update_changes_terminal_state_cex :
    (regSucceeded.get "job_2024-01-01_000000").map JobRecord.state
        = some "SUCCEEDED"
    ∧ ((JobRegistry.update regSucceeded "job_2024-01-01_000000"
        JobState.running "restarted" "t2").get
          "job_2024-01-01_000000").map JobRecord.state = some "RUNNING" := by
  constructor
  · rfl
  · rfl

/-- C1, amended.  `JobRegistry.update` does not protect terminal states: for
any record present in the registry — in particular one whose state is
`SUCCEEDED` or `FAILED` — a further `update` call overwrites the `state`
field with the requested value. -/
theorem update_overwrites_terminal_state (reg : JobRegistry) (j : String)
    (job : JobRecord) (st : JobState) (msg t : String)
    (hj : reg j = some job)
    (hterm : job.state = "SUCCEEDED" ∨ job.state = "FAILED") :
    ((JobRegistry.update reg j st msg t).get j).map JobRecord.state
      = some st.value := by
  unfold JobRegistry.update JobRegistry.get
  rw [hj]
  simp

/-- C1, witness for the amended theorem at a concrete registry. -/
theorem update_overwrites_terminal_state_witness :
    ((JobRegistry.update regSucceeded "job_2024-01-01_000000"
        JobState.queued "again" "t3").get
          "job_2024-01-01_000000").map JobRecord.state = some "QUEUED" := by
  exact update_overwrites_terminal_state regSucceeded "job_2024-01-01_000000"
    { job_id := "job_2024-01-01_000000", state := "SUCCEEDED",
      message := "Export complete", created_at := "t0", updated_at := "t1" }
    JobState.queued "again" "t3" rfl (Or.inl rfl)

/-- C7.  `JobRegistry.update` is a no-op (raising nothing: it is a total
function) on an unknown `job_id`; on a known `job_id` it rewrites exactly the
`state`, `message` and `updated_at` fields, keeping `job_id` and `created_at`,
and leaves every other key of the registry unchanged. -/
theorem update_frame (reg : JobRegistry) (j : String) (st : JobState)
    (msg t : String) :
    (reg j = none → JobRegistry.update reg j st msg t = reg)
    ∧ (∀ job : JobRecord, reg j = some job →
        ((JobRegistry.update reg j st msg t) j
            = some { job_id := job.job_id, state := st.value, message := msg,
                     created_at := job.created_at, updated_at := t })
        ∧ (∀ k, k ≠ j → (JobRegistry.update reg j st msg t) k = reg k)) := by
  constructor
  · intro hnone
    unfold JobRegistry.update
    rw [hnone]
  · intro job hsome
    constructor
    · unfold JobRegistry.update
      rw [hsome]
      simp
    · intro k hk
      unfold JobRegistry.update
      rw [hsome]
      simp [hk]

/-- C7, witness: the two parts of `update_frame` applied at concrete
registries — an update of an id the registry does not hold, and an update of
the one id it does hold. -/
theorem update_frame_witness :
    (JobRegistry.update regSucceeded "missing" JobState.running "m" "t9"
        = regSucceeded)
    ∧ ((JobRegistry.update regSucceeded "job_2024-01-01_000000"
          JobState.failed "boom" "t9") "job_2024-01-01_000000"
        = some { job_id := "job_2024-01-01_000000", state := "FAILED",
                 message := "boom", created_at := "t0", updated_at := "t9" })
    ∧ ((JobRegistry.update regSucceeded "job_2024-01-01_000000"
          JobState.failed "boom" "t9") "other" = regSucceeded "other") := by
  refine ⟨(update_frame regSucceeded "missing" JobState.running "m" "t9").1 rfl,
    ((update_frame regSucceeded "job_2024-01-01_000000" JobState.failed
        "boom" "t9").2
      { job_id := "job_2024-01-01_000000", state := "SUCCEEDED",
        message := "Export complete", created_at := "t0", updated_at := "t1" }
      rfl).1,
    ((update_frame regSucceeded "job_2024-01-01_000000" JobState.failed
        "boom" "t9").2
      { job_id := "job_2024-01-01_000000", state := "SUCCEEDED",
        message := "Export complete", created_at := "t0", updated_at := "t1" }
      rfl).2 "other" (by decide)⟩

/-- C10.  `JobRegistry.create` on an id already present silently overwrites
the old record with a fresh one — state `QUEUED`, message `"Queued"`, the two
new timestamps — independently of what the old record held; it neither skips
the write nor fails (it is a total function). -/
theorem create_overwrites (reg : JobRegistry) (j : String) (old : JobRecord)
    (tc tu : String) (hj : reg j = some old) :
    (JobRegistry.create reg j tc tu) j
      = some { job_id := j, state := "QUEUED", message := "Queued",
               created_at := tc, updated_at := tu } := by
  unfold JobRegistry.create
  simp [JobState.value]

/-- C10, witness: overwriting the terminal record of `regSucceeded`. -/
theorem create_overwrites_witness :
    (JobRegistry.create regSucceeded "job_2024-01-01_000000" "t7" "t8")
        "job_2024-01-01_000000"
      = some { job_id := "job_2024-01-01_000000", state := "QUEUED",
               message := "Queued", created_at := "t7", updated_at := "t8" } := by
  exact create_overwrites regSucceeded "job_2024-01-01_000000"
    { job_id := "job_2024-01-01_000000", state := "SUCCEEDED",
      message := "Export complete", created_at := "t0", updated_at := "t1" }
    "t7" "t8" rfl

/-! ## Dispatcher and queue (src/app/queue.py, src/app/main.py) -/

/-- The environment the dispatcher reads: whether `REDIS_URL` is set, and —
to let the embedding speak about a configured-but-unreachable queue — whether
a network round-trip to that Redis instance would succeed.  `Redis.from_url`
itself opens no connection; only operations that actually talk to the server
(such as `Queue.enqueue`) observe reachability. -/
structure DispatchEnv where
  redis_url : Option String
  redis_reachable : Bool

/-- `get_redis` (src/app/queue.py lines 6–10): returns a client exactly when
`REDIS_URL` is set; no connection is attempted. -/
def get_redis (env : DispatchEnv) : Option String :=
  match env.redis_url with
  | none => none
  | some url => some url

/-- `get_queue` (src/app/queue.py lines 12–16): builds the `visionzones`
queue over the client when one exists.  The decision consults only the
presence of `REDIS_URL`; `env.redis_reachable` is never read. -/
def get_queue (env : DispatchEnv) : Option String :=
  match get_redis env with
  | none => none
  | some r => some ("visionzones@" ++ r)

/-- `enqueue` (src/app/queue.py lines 18–23): raises `RuntimeError` when no
queue is configured; otherwise `q.enqueue(...)` performs a Redis round-trip,
which raises a connection error when the server is unreachable and returns
the queued job's id otherwise. -/
def enqueue (env : DispatchEnv) (queue_job_id : String) :
    Except String String :=
  match get_queue env with
  | none => .error "Redis queue not configured. Set REDIS_URL to enable background worker."
  | some _ =>
      if env.redis_reachable then .ok queue_job_id
      else .error "ConnectionError"

/-- Dispatch section of the `/start` handler (src/app/main.py lines 95–107),
after input and environment-variable validation: create the registry entry,
then either enqueue on the distributed queue (marking the record `RUNNING`)
or submit to the local thread pool.  The handler wraps the `enqueue` call in
no `try`, so an `enqueue` error propagates out of `/start` as this function's
`.error` — the response then carries no `job_id`. -/
def start_dispatch (env : DispatchEnv) (reg : JobRegistry) (job_id : String)
    (tc tu tr : String) : Except String (JobRegistry × String × String) :=
  let reg1 := JobRegistry.create reg job_id tc tu
  match get_queue env with
  | some _ =>
      match enqueue env "rq-id" with
      | .error e => .error e
      | .ok _ =>
          .ok (JobRegistry.update reg1 job_id JobState.running
                "Queued on worker" tr, job_id, "QUEUED")
  | none => .ok (reg1, job_id, "QUEUED")

/-- C2, counterexample.  With `REDIS_URL` set but the queue unreachable,
submission does not fall back to the local pool: `get_queue` (which never
checks connectivity) selects the distributed strategy, the enqueue
round-trip fails, and `/start` propagates the error instead of returning a
`job_id`. -/
theorem unreachable_queue_fails_start_cex :
    start_dispatch { redis_url := some "redis://down:6379", redis_reachable := false }
        (fun _ => none) "job_2024-01-01_000000" "t0" "t1" "t2"
      = .error "ConnectionError" := by
  rfl

/-- C2, amended.  Strategy choice consults only the presence of `REDIS_URL`
(`get_queue` returns a queue iff the setting is present, regardless of
reachability), and whenever the setting is present but the queue is
unreachable, `/start` fails with the connection error — there is no
synchronous connectivity check and no fallback to the local worker pool. -/
theorem unreachable_queue_fails_start (env : DispatchEnv) (reg : JobRegistry)
    (job_id tc tu tr : String) (hurl : (env.redis_url).isSome)
    (hdown : env.redis_reachable = false) :
    (get_queue env).isSome
    ∧ start_dispatch env reg job_id tc tu tr = .error "ConnectionError" := by
  obtain ⟨url, hu⟩ := Option.isSome_iff_exists.mp hurl
  constructor
  · simp [get_queue, get_redis, hu]
  · simp [start_dispatch, get_queue, get_redis, hu, enqueue, hdown]

/-- C2, witness for the amended theorem. -/
theorem unreachable_queue_fails_start_witness :
    (get_queue { redis_url := some "redis://down:6379", redis_reachable := false }).isSome
    ∧ start_dispatch { redis_url := some "redis://down:6379", redis_reachable := false }
        (fun _ => none) "j" "t0" "t1" "t2" = .error "ConnectionError" := by
  exact unreachable_queue_fails_start
    { redis_url := some "redis://down:6379", redis_reachable := false }
    (fun _ => none) "j" "t0" "t1" "t2" (by decide) rfl

/-! ## Job-id generation (src/app/main.py line 95; src/main.py line 233;
src/app.py line 135) -/

/-- A UTC instant as `datetime.utcnow()` observes it: calendar fields down to
microseconds.  Two concurrent submissions see two values of this type. -/
structure UtcTime where
  year : Nat
  month : Nat
  day : Nat
  hour : Nat
  minute : Nat
  second : Nat
  microsecond : Nat
deriving DecidableEq

/-- Zero-padded two-digit field, as `strftime` renders `%m`, `%d`, `%H`,
`%M`, `%S`. -/
def pad2 (n : Nat) : String :=
  if n < 10 then "0" ++ toString n else toString n

/-- Zero-padded four-digit year, as `strftime` renders `%Y`. -/
def pad4 (n : Nat) : String :=
  if n < 10 then "000" ++ toString n
  else if n < 100 then "00" ++ toString n
  else if n < 1000 then "0" ++ toString n
  else toString n

/-- `job_id` of the `/start` handler in src/app/main.py:
`f"job_{datetime.utcnow().strftime('%Y-%m-%d_%H%M%S')}"`. -/
def jobIdApp (t : UtcTime) : String :=
  "job_" ++ pad4 t.year ++ "-" ++ pad2 t.month ++ "-" ++ pad2 t.day ++ "_"
    ++ pad2 t.hour ++ pad2 t.minute ++ pad2 t.second

/-- `job_id` of `start_job` in src/main.py and src/app.py:
`datetime.datetime.utcnow().strftime("job_%Y%m%d_%H%M%S")`. -/
def jobIdMain (t : UtcTime) : String :=
  "job_" ++ pad4 t.year ++ pad2 t.month ++ pad2 t.day ++ "_"
    ++ pad2 t.hour ++ pad2 t.minute ++ pad2 t.second

/-- C8, counterexample.  Two distinct submission instants in the same UTC
second — here 500 ms apart — receive the same job id in every one of the
three apps: the id is a second-resolution timestamp with no disambiguator,
so concurrent submissions collide. -/
theorem same_second_job_ids_collide_cex :
    (({ year := 2024, month := 1, day := 2, hour := 3, minute := 4,
        second := 5, microsecond := 0 } : UtcTime)
      ≠ { year := 2024, month := 1, day := 2, hour := 3, minute := 4,
          second := 5, microsecond := 500000 })
    ∧ jobIdApp { year := 2024, month := 1, day := 2, hour := 3, minute := 4,
                 second := 5, microsecond := 0 }
        = jobIdApp { year := 2024, month := 1, day := 2, hour := 3, minute := 4,
                     second := 5, microsecond := 500000 }
    ∧ jobIdMain { year := 2024, month := 1, day := 2, hour := 3, minute := 4,
                  second := 5, microsecond := 0 }
        = jobIdMain { year := 2024, month := 1, day := 2, hour := 3, minute := 4,
                      second := 5, microsecond := 500000 } := by
  refine ⟨by decide, rfl, rfl⟩

/-- C8, amended.  Job-id generation reads only the whole-second part of the
submission timestamp: any two submissions whose UTC timestamps agree down to
the second — in particular distinct, concurrent ones differing only in
sub-second time — are assigned identical ids, in all three apps.  Ids can
differ only across distinct whole seconds. -/
theorem same_second_job_ids_collide (t1 t2 : UtcTime)
    (hy : t1.year = t2.year) (hmo : t1.month = t2.month)
    (hd : t1.day = t2.day) (hh : t1.hour = t2.hour)
    (hmi : t1.minute = t2.minute) (hs : t1.second = t2.second) :
    jobIdApp t1 = jobIdApp t2 ∧ jobIdMain t1 = jobIdMain t2 := by
  unfold jobIdApp jobIdMain
  rw [hy, hmo, hd, hh, hmi, hs]
  exact ⟨rfl, rfl⟩

/-- C8, witness for the amended theorem. -/
theorem same_second_job_ids_collide_witness :
    jobIdApp { year := 2024, month := 1, day := 2, hour := 3, minute := 4,
               second := 5, microsecond := 1 }
      = jobIdApp { year := 2024, month := 1, day := 2, hour := 3, minute := 4,
                   second := 5, microsecond := 999999 }
    ∧ jobIdMain { year := 2024, month := 1, day := 2, hour := 3, minute := 4,
                  second := 5, microsecond := 1 }
      = jobIdMain { year := 2024, month := 1, day := 2, hour := 3, minute := 4,
                    second := 5, microsecond := 999999 } := by
  exact same_second_job_ids_collide
    { year := 2024, month := 1, day := 2, hour := 3, minute := 4,
      second := 5, microsecond := 1 }
    { year := 2024, month := 1, day := 2, hour := 3, minute := 4,
      second := 5, microsecond := 999999 } rfl rfl rfl rfl rfl rfl

/-! ## Object storage and archive assembly (src/app/storage.py,
src/app/main.py `download_zip`, src/main.py `download_zip`) -/

/-- One object of the storage bucket: its key (`blob.name`) and its content
(`blob.download_as_bytes()`), bytes as naturals. -/
structure Blob where
  name : String
  payload : List Nat
deriving DecidableEq

/-- Python's `p.startswith(s)`-style check `b.name.startswith(prefix)`,
character-exact. -/
def pyStartswith (p s : String) : Bool := p.data.isPrefixOf s.data

/-- Python's slice `s[n:]` on a string. -/
def pyDropChars (s : String) (n : Nat) : String := ⟨s.data.drop n⟩

/-- Python's `s.endswith("/")`. -/
def endsWithSlash (s : String) : Bool := s.data.getLast? == some '/'

/-- Python's `name.split("/")` for the single-character separator used by the
sources. -/
def splitSlash : List Char → List (List Char)
  | [] => [[]]
  | c :: cs =>
      if c = '/' then [] :: splitSlash cs
      else
        match splitSlash cs with
        | [] => [[c]]
        | s :: rest => (c :: s) :: rest

/-- Python's `"/".join(parts)`. -/
def joinSlash : List (List Char) → List Char
  | [] => []
  | [s] => s
  | s :: rest => s ++ '/' :: joinSlash rest

/-- The arcname computation of the `download_zip` streamers in src/main.py
and src/app.py: `"/".join(b.name.split("/")[1:])` — only the leading
`job_id` path segment is removed. -/
def stripJobSegment (s : String) : String :=
  ⟨joinSlash ((splitSlash s.data).drop 1)⟩

/-- `list_blobs` / `client.list_blobs(prefix=...)`: every object of the
store whose key starts with the prefix. -/
def listBlobs (store : List Blob) (p : String) : List Blob :=
  store.filter (fun b => pyStartswith p b.name)

/-- The archive entries built by `zip_gcs_prefix` (src/app/storage.py lines
12–19): keys ending in `/` are skipped (`continue`); every other listed blob
contributes one entry named `b.name[len(prefix):]` when the key starts with
the prefix and `b.name` otherwise, holding the blob's bytes. -/
def zipGcsEntries (p : String) (blobs : List Blob) : List (String × List Nat) :=
  (blobs.filter (fun b => !(endsWithSlash b.name))).map (fun b =>
    (if pyStartswith p b.name then pyDropChars b.name p.length else b.name,
     b.payload))

/-- The archive entries built by the `stream()` generator of `download_zip`
in src/main.py (lines 286–293) and `iterfile()` in src/app.py: one entry per
listed blob, named by `stripJobSegment`. -/
def streamEntries (blobs : List Blob) : List (String × List Nat) :=
  blobs.map (fun b => (stripJobSegment b.name, b.payload))

/-- `GET /download-zip` of src/app/main.py (lines 126–137): 404 when the
registry does not know the job, 409 when its state is not `SUCCEEDED`, else
the archive of every object under `f"{job_id}/"`.  There is no emptiness
check on the listing. -/
def download_zip_app (reg : JobRegistry) (store : List Blob)
    (job_id : String) : Except (Nat × String) (List (String × List Nat)) :=
  match reg.get job_id with
  | none => .error (404, "Unknown job_id")
  | some st =>
      if st.state ≠ JobState.succeeded.value then
        .error (409, "Job not ready (state=" ++ st.state ++ ").")
      else
        .ok (zipGcsEntries (job_id ++ "/") (listBlobs store (job_id ++ "/")))

/-- The listing prefix of `download_zip` in src/main.py (line 281):
`f"{job_id}/" if not index else f"{job_id}/{index}/"` — a `None` or empty
index selects the whole job namespace. -/
def zipListPfx (job_id : String) (index : Option String) : String :=
  match index with
  | none => job_id ++ "/"
  | some idx => if idx = "" then job_id ++ "/" else job_id ++ "/" ++ idx ++ "/"

/-- `GET /download-zip` of src/main.py (lines 275–297): list the (optionally
index-scoped) prefix, 404 on an empty listing, else the streamed archive of
`streamEntries`. -/
def download_zip_indices (store : List Blob) (job_id : String)
    (index : Option String) : Except (Nat × String) (List (String × List Nat)) :=
  let blobs := listBlobs store (zipListPfx job_id index)
  if blobs.isEmpty then
    .error (404, "No files for this job yet (or wrong job_id/index).")
  else
    .ok (streamEntries blobs)

/-- C3.  For a job the registry knows whose state is not `SUCCEEDED`,
`download_zip` in src/app/main.py fails with a 409 conflict and a
`Job not ready` detail; the result carries no archive entry, whatever the
bucket holds — the archive streamer is never invoked. -/
theorem download_zip_conflict_before_success (reg : JobRegistry)
    (store : List Blob) (job_id : String) (st : JobRecord)
    (hknown : reg.get job_id = some st)
    (hnot : st.state ≠ "SUCCEEDED") :
    download_zip_app reg store job_id
      = .error (409, "Job not ready (state=" ++ st.state ++ ").") := by
  unfold download_zip_app
  rw [hknown]
  simp [JobState.value, hnot]

/-- C3, witness: a `RUNNING` job is refused with 409 even though its objects
are already in the bucket. -/
theorem download_zip_conflict_before_success_witness :
    download_zip_app
        (fun k => if k = "job_a" then
          some { job_id := "job_a", state := "RUNNING",
                 message := "Initializing Earth Engine", created_at := "t0",
                 updated_at := "t1" } else none)
        [{ name := "job_a/zones_k5.tif", payload := [1] }] "job_a"
      = .error (409, "Job not ready (state=" ++ "RUNNING" ++ ").") := by
  exact download_zip_conflict_before_success _ _ "job_a"
    { job_id := "job_a", state := "RUNNING",
      message := "Initializing Earth Engine", created_at := "t0",
      updated_at := "t1" }
    rfl (by decide)

/-- C5, counterexample.  In src/app/main.py, a `SUCCEEDED` job with zero
objects under its prefix is not refused: `download_zip` performs no
not-found check on the listing and answers success with an empty archive
(zero entries) instead of a 404 error. -/
theorem download_zip_empty_archive_cex :
    download_zip_app regSucceeded [] "job_2024-01-01_000000" = .ok [] := by
  rfl

/-- C5, amended.  The zero-object guard exists only in src/main.py (and
src/app.py): there an empty listing yields the 404 error.  In src/app/main.py
the operation succeeds on a `SUCCEEDED` job with an empty listing and
returns an empty archive. -/
theorem download_zip_empty_listing (reg : JobRegistry) (store : List Blob)
    (job_id : String) (index : Option String) (st : JobRecord)
    (hknown : reg.get job_id = some st)
    (hsucc : st.state = "SUCCEEDED")
    (happ : listBlobs store (job_id ++ "/") = [])
    (hmain : listBlobs store (zipListPfx job_id index) = []) :
    download_zip_app reg store job_id = .ok []
    ∧ download_zip_indices store job_id index
        = .error (404, "No files for this job yet (or wrong job_id/index).") := by
  constructor
  · unfold download_zip_app
    rw [hknown]
    simp [JobState.value, hsucc, happ, zipGcsEntries]
  · unfold download_zip_indices
    rw [hmain]
    rfl

/-- C5, witness for the amended theorem: an empty bucket. -/
theorem download_zip_empty_listing_witness :
    download_zip_app regSucceeded [] "job_2024-01-01_000000" = .ok []
    ∧ download_zip_indices [] "job_2024-01-01_000000" (some "NDVI")
        = .error (404, "No files for this job yet (or wrong job_id/index).") := by
  exact download_zip_empty_listing regSucceeded [] "job_2024-01-01_000000"
    (some "NDVI")
    { job_id := "job_2024-01-01_000000", state := "SUCCEEDED",
      message := "Export complete", created_at := "t0", updated_at := "t1" }
    rfl rfl rfl rfl

/-- Helper: dropping a common leading prefix is injective on strings that
start with it. -/
theorem pyDropChars_inj (p s t : String) (hs : pyStartswith p s = true)
    (ht : pyStartswith p t = true)
    (h : pyDropChars s p.length = pyDropChars t p.length) : s = t := by
  unfold pyStartswith at hs ht
  unfold pyDropChars at h
  obtain ⟨us, hus⟩ := List.isPrefixOf_iff_prefix.mp hs
  obtain ⟨ut, hut⟩ := List.isPrefixOf_iff_prefix.mp ht
  have hlen : p.length = p.data.length := rfl
  have e1 : s.data.drop p.length = us := by
    rw [← hus, hlen, List.drop_left]
  have e2 : t.data.drop p.length = ut := by
    rw [← hut, hlen, List.drop_left]
  have husut : us = ut := by
    have hd := congrArg String.data h
    simp only [e1, e2] at hd
    exact hd
  exact String.ext (by rw [← hus, ← hut, husut])

/-- Helper: in a duplicate-free list, a member is counted exactly once
(stated over any lawful `BEq`). -/
theorem count_eq_one_of_nodup_mem {α : Type} [BEq α] [LawfulBEq α]
    {l : List α} {a : α} (d : l.Nodup) (h : a ∈ l) : l.count a = 1 := by
  induction l with
  | nil => cases h
  | cons x xs ih =>
      rcases List.mem_cons.mp h with rfl | hmem
      · rw [List.count_cons_self]
        have hnotin : a ∉ xs := (List.nodup_cons.mp d).1
        rw [List.count_eq_zero.mpr hnotin]
      · have hne : a ≠ x := fun e => ((List.nodup_cons.mp d).1 (e ▸ hmem))
        rw [List.count_cons_of_ne hne]
        exact ih (List.nodup_cons.mp d).2 hmem

/-- C4, counterexample.  A download scoped to one index in src/main.py
(`?index=NDVI`) lists under the prefix `job_1/NDVI/` but names each entry by
stripping only the leading `job_1` segment: the object `job_1/NDVI/a.tif`
enters the archive as `NDVI/a.tif`, not as its key with the full
job-and-index prefix removed (`a.tif`). -/
theorem stream_arcname_keeps_index_segment_cex :
    download_zip_indices [{ name := "job_1/NDVI/a.tif", payload := [1, 2] }]
        "job_1" (some "NDVI")
      = .ok [("NDVI/a.tif", [1, 2])]
    ∧ pyDropChars "job_1/NDVI/a.tif" "job_1/NDVI/".length = "a.tif"
    ∧ ("NDVI/a.tif" : String) ≠ "a.tif" := by
  refine ⟨rfl, by decide, by decide⟩

/-- C4, amended.  In the src/app/storage.py streamer, each listed object
whose key does not end in `/` (directory placeholders are skipped) appears
exactly once, named by its key with the full listing prefix removed, and the
entry count equals the count of those non-placeholder objects.  In the
src/main.py / src/app.py streamer, every listed object contributes exactly
one entry — entry count equals listed-object count — but its name is the key
with only the leading job-id segment removed, which keeps the index segment
when the listing is narrowed to one index. -/
theorem archive_entries_round_trip (p : String) (blobs : List Blob)
    (hpre : ∀ b ∈ blobs, pyStartswith p b.name = true)
    (hnd : ((blobs.filter (fun b => !(endsWithSlash b.name))).map
      Blob.name).Nodup) :
    ((zipGcsEntries p blobs).length
        = (blobs.filter (fun b => !(endsWithSlash b.name))).length)
    ∧ (∀ b ∈ blobs, endsWithSlash b.name = false →
        (zipGcsEntries p blobs).count
          (pyDropChars b.name p.length, b.payload) = 1)
    ∧ ((streamEntries blobs).length = blobs.length)
    ∧ (∀ b ∈ blobs, (stripJobSegment b.name, b.payload) ∈ streamEntries blobs) := by
  have hmapeq : zipGcsEntries p blobs
      = (blobs.filter (fun b => !(endsWithSlash b.name))).map
          (fun b => (pyDropChars b.name p.length, b.payload)) := by
    unfold zipGcsEntries
    apply List.map_congr_left
    intro b hb
    rw [hpre b (List.mem_of_mem_filter hb)]
    simp
  refine ⟨?_, ?_, ?_, ?_⟩
  · rw [hmapeq, List.length_map]
  · intro b hb hns
    have hbf : b ∈ blobs.filter (fun b => !(endsWithSlash b.name)) :=
      List.mem_filter.mpr ⟨hb, by simp [hns]⟩
    have hinj : ∀ x ∈ blobs.filter (fun b => !(endsWithSlash b.name)),
        ∀ y ∈ blobs.filter (fun b => !(endsWithSlash b.name)),
        (pyDropChars x.name p.length, x.payload)
          = (pyDropChars y.name p.length, y.payload) → x = y := by
      intro x hx y hy hxy
      have hnames : x.name = y.name :=
        pyDropChars_inj p x.name y.name
          (hpre x (List.mem_of_mem_filter hx))
          (hpre y (List.mem_of_mem_filter hy))
          (congrArg Prod.fst hxy)
      exact List.inj_on_of_nodup_map hnd hx hy hnames
    have hnodup : ((blobs.filter (fun b => !(endsWithSlash b.name))).map
        (fun b => (pyDropChars b.name p.length, b.payload))).Nodup :=
      List.Nodup.map_on hinj (List.Nodup.of_map Blob.name hnd)
    rw [hmapeq]
    exact count_eq_one_of_nodup_mem hnodup
      (List.mem_map.mpr ⟨b, hbf, rfl⟩)
  · unfold streamEntries
    rw [List.length_map]
  · intro b hb
    exact List.mem_map.mpr ⟨b, hb, rfl⟩

/-- C4, witness: a two-object job listed under its full-job prefix. -/
theorem archive_entries_round_trip_witness :
    (zipGcsEntries "job_1/"
        [{ name := "job_1/NDVI/a.tif", payload := [1] },
         { name := "job_1/zones_k5.tif", payload := [2] }]).length = 2
    ∧ (zipGcsEntries "job_1/"
        [{ name := "job_1/NDVI/a.tif", payload := [1] },
         { name := "job_1/zones_k5.tif", payload := [2] }]).count
        (pyDropChars "job_1/NDVI/a.tif" "job_1/".length, [1]) = 1
    ∧ (streamEntries
        [{ name := "job_1/NDVI/a.tif", payload := [1] },
         { name := "job_1/zones_k5.tif", payload := [2] }]).length = 2 := by
  have h := archive_entries_round_trip "job_1/"
    [{ name := "job_1/NDVI/a.tif", payload := [1] },
     { name := "job_1/zones_k5.tif", payload := [2] }]
    (by decide) (by decide)
  exact ⟨h.1, h.2.1 { name := "job_1/NDVI/a.tif", payload := [1] }
    (by decide) (by decide), h.2.2.1⟩

/-! ## Streaming discipline of the archive generators (src/app/storage.py
lines 12–21; src/main.py lines 286–293) -/

/-- The observable effects of the archive generator, in order: a blob
download (`b.download_as_bytes()`) or the emission of one output chunk to
the HTTP response. -/
inductive ZipEvent where
  | download (name : String) (size : Nat)
  | emitChunk (size : Nat)
deriving DecidableEq

/-- Whether an event is a blob download. -/
def isDownloadEv : ZipEvent → Bool
  | .download _ _ => true
  | .emitChunk _ => false

/-- Fuelled chunking; fuel `l.length` suffices for any positive chunk
size. -/
def chunkFuel (n : Nat) : Nat → List Nat → List (List Nat)
  | 0, _ => []
  | _ + 1, [] => []
  | fuel + 1, l => l.take n :: chunkFuel n fuel (l.drop n)

/-- `iter(lambda: mem.read(64 * 1024), b"")`: the finished in-memory archive
split into successive chunks. -/
def chunksOf (n : Nat) (l : List Nat) : List (List Nat) :=
  chunkFuel n l.length l

/-- The effect trace of `zip_gcs_prefix` (src/app/storage.py): the `for`
loop downloads every non-placeholder blob into the `BytesIO` buffer, the
`with zipfile.ZipFile(...)` block closes, and only then does the generator
yield the buffer in 64 KiB chunks.  `serialize` abstracts the zip byte
format; the trace shape holds for any serializer.  The `stream()` generator
of src/main.py follows the same buffer-everything-then-yield shape. -/
def zipStreamTrace (serialize : List (String × List Nat) → List Nat)
    (p : String) (blobs : List Blob) : List ZipEvent :=
  ((blobs.filter (fun b => !(endsWithSlash b.name))).map
      (fun b => ZipEvent.download b.name b.payload.length))
    ++ ((chunksOf 65536 (serialize (zipGcsEntries p blobs))).map
      (fun c => ZipEvent.emitChunk c.length))

/-- C9, counterexample.  For a two-object job, the generator's trace
downloads both objects into the in-memory archive before emitting the first
output chunk: nothing is flushed incrementally, and at the moment of the
first emission the buffer holds data derived from every source object. -/
theorem zip_stream_buffers_everything_cex :
    zipStreamTrace (fun es => es.flatMap Prod.snd) "j/"
        [{ name := "j/a", payload := [0] }, { name := "j/b", payload := [7] }]
      = [ZipEvent.download "j/a" 1, ZipEvent.download "j/b" 1,
         ZipEvent.emitChunk 2]
    ∧ ((zipStreamTrace (fun es => es.flatMap Prod.snd) "j/"
        [{ name := "j/a", payload := [0] }, { name := "j/b", payload := [7] }]).takeWhile
          isDownloadEv).length = 2 := by
  refine ⟨rfl, rfl⟩

/-- C9, amended.  For every job and every zip serializer, the archive
generator's trace splits into a download phase followed by an emission
phase: it downloads all of the job's (non-placeholder) objects into the
in-memory buffer and only afterwards yields output chunks, so peak memory
grows with the total archive size rather than staying bounded. -/
theorem zip_stream_trace_phases
    (serialize : List (String × List Nat) → List Nat) (p : String)
    (blobs : List Blob) :
    ∃ dl em, zipStreamTrace serialize p blobs = dl ++ em
      ∧ dl.length = (blobs.filter (fun b => !(endsWithSlash b.name))).length
      ∧ (∀ ev ∈ dl, isDownloadEv ev = true)
      ∧ (∀ ev ∈ em, isDownloadEv ev = false) := by
  refine ⟨_, _, rfl, by simp [List.length_map], ?_, ?_⟩
  · intro ev hev
    obtain ⟨b, _, rfl⟩ := List.mem_map.mp hev
    rfl
  · intro ev hev
    obtain ⟨c, _, rfl⟩ := List.mem_map.mp hev
    rfl

/-! ## Export fan-out of the indices pipeline (src/main.py lines 236–251;
src/app.py lines 137–152) -/

/-- Python's `range(a, b)` over integers. -/
def pyRange (a b : Int) : List Int :=
  (List.range (b - a).toNat).map (fun (i : Nat) => a + (i : Int))

/-- Membership in `pyRange` is the half-open interval. -/
theorem mem_pyRange {a b y : Int} : y ∈ pyRange a b ↔ a ≤ y ∧ y < b := by
  unfold pyRange
  rw [List.mem_map]
  constructor
  · rintro ⟨i, hi, rfl⟩
    rw [List.mem_range] at hi
    omega
  · rintro ⟨h1, h2⟩
    exact ⟨(y - a).toNat, List.mem_range.mpr (by omega), by omega⟩

/-- `pyRange` has `(b - a).toNat` elements. -/
theorem pyRange_length (a b : Int) : (pyRange a b).length = (b - a).toNat := by
  unfold pyRange
  rw [List.length_map, List.length_range]

/-- `pyRange` repeats no year or month. -/
theorem pyRange_nodup (a b : Int) : (pyRange a b).Nodup := by
  unfold pyRange
  exact List.Nodup.map (fun i j h => by omega) (List.nodup_range _)

/-- The remote-export launches of `start_job` (src/main.py lines 236–251,
identically src/app.py lines 137–152): one `Export.image.toCloudStorage`
task per `(year, month, index)` of the nested loops
`for y in range(start_year, end_year + 1): for m in range(1, 13):
for idx in idx_list:`. -/
def start_job_tasks (start_year end_year : Int) (idx_list : List String) :
    List (Int × Int × String) :=
  (pyRange start_year (end_year + 1)).flatMap (fun y =>
    (pyRange 1 13).flatMap (fun m =>
      idx_list.map (fun idx => (y, m, idx))))

/-- The nested launch loops enumerate the product
years × months × indices. -/
theorem start_job_tasks_eq_product (s e : Int) (idx_list : List String) :
    start_job_tasks s e idx_list
      = (pyRange s (e + 1)) ×ˢ ((pyRange 1 13) ×ˢ idx_list) := by
  unfold start_job_tasks
  simp only [SProd.sprod, List.product, List.map_flatMap, List.map_map]
  rfl

/-- C6.  An indices-mode job over the inclusive year span
`start_year..end_year` with `M` selected indices starts exactly
`(end_year - start_year + 1) × 12 × M` remote tasks; the started tasks are
exactly the `(year, month, index)` triples of the span, and (for distinct
selected indices) no triple is started twice. -/
theorem start_job_task_fanout (s e : Int) (idx_list : List String) :
    ((start_job_tasks s e idx_list).length
        = (e - s + 1).toNat * 12 * idx_list.length)
    ∧ (∀ y m i, (y, m, i) ∈ start_job_tasks s e idx_list
        ↔ (s ≤ y ∧ y ≤ e ∧ 1 ≤ m ∧ m ≤ 12 ∧ i ∈ idx_list))
    ∧ (idx_list.Nodup → (start_job_tasks s e idx_list).Nodup) := by
  rw [start_job_tasks_eq_product]
  refine ⟨?_, ?_, ?_⟩
  · rw [List.length_product, List.length_product, pyRange_length, pyRange_length]
    have h1 : e + 1 - s = e - s + 1 := by ring
    have h2 : ((13 : Int) - 1).toNat = 12 := by decide
    rw [h1, h2, Nat.mul_assoc]
  · intro y m i
    rw [List.mem_product, List.mem_product, mem_pyRange, mem_pyRange]
    constructor
    · rintro ⟨⟨ha, hb⟩, ⟨hc, hd⟩, he⟩
      exact ⟨ha, by omega, hc, by omega, he⟩
    · rintro ⟨ha, hb, hc, hd, he⟩
      exact ⟨⟨ha, by omega⟩, ⟨hc, by omega⟩, he⟩
  · intro hnd
    exact List.Nodup.product (pyRange_nodup _ _)
      (List.Nodup.product (pyRange_nodup _ _) hnd)

/-- C6, witness: the 1-year, 1-index job starts exactly 12 tasks — the 12
monthly buckets of that index — each exactly once. -/
theorem start_job_task_fanout_witness :
    (start_job_tasks 2023 2023 ["NDVI"]).length = 12
    ∧ ((2023, 5, "NDVI") ∈ start_job_tasks 2023 2023 ["NDVI"])
    ∧ (start_job_tasks 2023 2023 ["NDVI"]).Nodup := by
  have h := start_job_task_fanout 2023 2023 ["NDVI"]
  refine ⟨?_, ?_, h.2.2 (by decide)⟩
  · rw [h.1]
    decide
  · exact (h.2.1 2023 5 "NDVI").mpr
      ⟨by decide, by decide, by decide, by decide, by decide⟩
